import Mathlib

/-!
Verification development for a canvas side-scrolling arcade game
(a Flappy-Bird clone).  The source consists of a `Game` orchestrator
class (state machine, frame loop, scoring/leveling, resize and
background generation) and a `Bird` actor entity (gravity integration,
floor/ceiling handling, flap, collision reaction).

The embedding below translates those two classes directly.  Collaborator
classes that are not part of the repository snapshot (Scene, TubesDriver,
PhysicsEngine, the Config value object, LocalStorage) are modelled from
the specification where the claims need them; every such definition is
marked `Modelled from the spec:` in its doc comment.

Numeric values (positions, speeds, timestamps, deltas) are embedded as
rationals; scores and levels are naturals, matching the integer
arithmetic the source performs on them.  Drawing and sound playback are
external side effects with no bearing on the simulation state and are
not modelled.
-/

namespace Flappy

/-- The four game phases of `Game.STATES`. -/
inductive GState where
  | LOADING
  | IDLE
  | PLAYING
  | GAME_OVER
deriving DecidableEq

/-- The string key the source uses for each state (the `STATES` map values). -/
def GState.key : GState → String
  | .LOADING => "LOADING"
  | .IDLE => "IDLE"
  | .PLAYING => "PLAYING"
  | .GAME_OVER => "GAME_OVER"

/-- Runtime class of a scene entity.  The source distinguishes entities with
`instanceof Tube` / `instanceof Background`; the model uses an explicit tag. -/
inductive EntityKind where
  | birdKind
  | tubeKind
  | backgroundKind
deriving DecidableEq

/-- A non-actor scene entity (a tube pair or a background tile): position,
size, horizontal scroll speed, and — for tube pairs — the vertical gap
(`spaceY`, `spaceHeight`).  Modelled from the spec: the Tube and Background
entity classes are not in the repository snapshot. -/
structure Entity where
  kind : EntityKind
  x : ℚ
  y : ℚ
  width : ℚ
  height : ℚ
  speed : ℚ
  spaceY : ℚ
  spaceHeight : ℚ
deriving DecidableEq

/-- The actor.  Fields taken from `Bird` (bird.js) and its constructor
parameters; `rotation` and `frame` stand for the animation state the
`AnimatedEntity` base class keeps (that base class is not in the snapshot). -/
structure Bird where
  x : ℚ
  y : ℚ
  width : ℚ
  height : ℚ
  fallingSpeed : ℚ
  flapSpeed : ℚ
  rotation : ℚ
  frame : ℕ
deriving DecidableEq

/-- The configuration constants the embedded code reads.  Modelled from the
spec: the `Config` class is not in the snapshot; the field set is exactly the
set of `this._config.…` reads the `Game` class performs, plus `lookahead`,
the spawn horizon of the obstacle driver (spec §4.5). -/
structure Config where
  gravitation : ℚ
  canvasW : ℚ
  canvasH : ℚ
  tubesSpeed : ℚ
  tubesWidth : ℚ
  borderOffset : ℚ
  spaceMin : ℚ
  spaceMax : ℚ
  minDistance : ℚ
  maxDistance : ℚ
  lookahead : ℚ
  birdStartX : ℚ
  birdWidth : ℚ
  birdHeight : ℚ
  flapSpeed : ℚ
  backgroundW : ℚ
  backgroundH : ℚ
  backgroundSpeed : ℚ
  levelUpAcceleration : ℚ
  fps : ℚ
deriving DecidableEq

/-- The whole orchestrator state: the `Game` instance fields, the scene it
owns (viewport dimensions plus the live tube/background entities; the actor
is kept in its own field, as in the source, where it is also registered in
the scene), the driver's current spawn speed, the persisted storage cell,
the canvas client dimensions the environment reports, a pending-frame flag
(`scheduled` — whether a loop callback is outstanding), and a stream of
random draws consumed by the obstacle spawner. -/
structure Game where
  cfg : Config
  canvasW : ℚ
  canvasH : ℚ
  state : GState
  score : ℕ
  level : ℕ
  highScore : ℕ
  storage : ℕ
  sceneW : ℚ
  sceneH : ℚ
  entities : List Entity
  bird : Bird
  driverSpeed : ℚ
  lastUpdate : ℚ
  scheduled : Bool
  rand : List ℚ
deriving DecidableEq

/-- `Bird.flap`: the falling speed is set to `-flapSpeed` (the flap sound is
an external effect). -/
def Bird.flap (b : Bird) : Bird :=
  { b with fallingSpeed := -b.flapSpeed }

/-- `Bird.update(delta)` from bird.js: the animated-entity base update
(modelled from the spec: it advances the animation frame and derives the
rotation from the fall velocity; it does not move the actor), then the
physics engine step `velocity += gravitation * delta; y += velocity * delta`
(modelled from the spec §4.3, the engine class is not in the snapshot), then
the `y < 0` clamp, then the floor test `y + height >= scene.height`.
Returns the updated bird and whether the floor test fired (the source then
plays the die sound and calls `game.gameOver()`). -/
def Bird.update (grav delta sceneH : ℚ) (b : Bird) : Bird × Bool :=
  let b0 : Bird := { b with frame := b.frame + 1, rotation := b.fallingSpeed }
  let v : ℚ := b0.fallingSpeed + grav * delta
  let y1 : ℚ := b0.y + v * delta
  let y2 : ℚ := if y1 < 0 then 0 else y1
  (⟨b0.x, y2, b0.width, b0.height, v, b0.flapSpeed, b0.rotation, b0.frame⟩,
    decide (sceneH ≤ y2 + b0.height))

/-- `Game.gameOver()`: `_changeState(GAME_OVER)` — the GAME_OVER handler only
draws the scores overlay, so the state field is the whole effect. -/
def Game.gameOver (g : Game) : Game :=
  { g with state := GState.GAME_OVER }

/-- `Bird.collide(entity)` from bird.js: the base `collide` takes no action
(modelled from the spec §4.4: tube pairs and tiles are passive on collision);
if the other entity is a `Tube`, the hit sound plays and `game.gameOver()`
runs. -/
def Bird.collide (g : Game) (k : EntityKind) : Game :=
  if k = EntityKind.tubeKind then g.gameOver else g

/-- Fuel-bounded unfolding of the `while` loop of
`Game._generateBackgrounds`: while the last tile starts left of the scene
width, the next tile starts where it ends (`last.x + last.width`); every
tile has the same width `w`.  The fuel only bounds the recursion depth;
`genXs` supplies enough of it for the loop to run to completion, so the
produced list never depends on it. -/
def genXsAux (w sceneW : ℚ) : ℕ → ℚ → List ℚ
  | 0, x => [x]
  | n + 1, x =>
    if 0 < w ∧ x < sceneW then x :: genXsAux w sceneW n (x + w) else [x]

/-- The tile abscissas produced by the `while` loop of
`Game._generateBackgrounds`, starting from a tile at `x` (the source starts
at `x = 0`): the loop always creates the tile at `x` and continues while the
last tile starts left of the scene width.  `⌈(sceneW - x) / w⌉` steps always
suffice, so the fuel never cuts the loop short (see `genXs_eq`).  The source
loop never terminates when `w ≤ 0`; the model stops after the first tile
instead, and every theorem about it assumes `0 < w`. -/
def genXs (w sceneW x : ℚ) : List ℚ :=
  genXsAux w sceneW (Nat.ceil ((sceneW - x) / w)) x

/-- `Game._generateBackgrounds`: delete the previous tiles and create a
contiguous row of fresh tiles of width `scene.height * (background.width /
background.height)` and full scene height, moving at the configured base
background speed.  The source keeps the replaced tiles in a `_backgrounds`
array and deletes those entities from the scene; the model replaces every
background entity of the scene (it does not track the stale duplicate tiles
that `reset`'s double generation leaks, which occupy the same positions). -/
def Game.generateBackgrounds (g : Game) : Game :=
  let w : ℚ := g.sceneH * (g.cfg.backgroundW / g.cfg.backgroundH)
  let tiles : List Entity := (genXs w g.sceneW 0).map fun x =>
    { kind := EntityKind.backgroundKind, x := x, y := 0, width := w,
      height := g.sceneH, speed := g.cfg.backgroundSpeed,
      spaceY := 0, spaceHeight := 0 }
  { g with entities := g.entities.filter (fun e => e.kind ≠ EntityKind.backgroundKind) ++ tiles }

/-- Modelled from the spec §4.5: the obstacle spawner.  `random(a, b)` is
modelled as `a + r * (b - a)` for a draw `r` taken from the supplied stream;
each spawned pair consumes three draws (horizontal distance, gap size, gap
offset).  While the rightmost pair's x-position is below
`viewportWidth + lookahead`, a pair of the configured width and the driver's
current speed is created at `previous.x + previous.width + distance`.  The
model also stops when the draw stream runs out; the leftover stream is
returned. -/
def spawnTubes (cfg : Config) (sceneW sceneH speed : ℚ) :
    List ℚ → ℚ → List Entity × List ℚ
  | r1 :: r2 :: r3 :: rest, lastX =>
    if lastX < sceneW + cfg.lookahead then
      let dist : ℚ := cfg.minDistance + r1 * (cfg.maxDistance - cfg.minDistance)
      let space : ℚ := cfg.spaceMin + r2 * (cfg.spaceMax - cfg.spaceMin)
      let offset : ℚ := cfg.borderOffset + r3 * (sceneH - 2 * cfg.borderOffset - space)
      let x : ℚ := lastX + cfg.tubesWidth + dist
      let t : Entity :=
        { kind := EntityKind.tubeKind, x := x, y := 0, width := cfg.tubesWidth,
          height := sceneH, speed := speed, spaceY := offset, spaceHeight := space }
      let p := spawnTubes cfg sceneW sceneH speed rest x
      (t :: p.1, p.2)
    else
      ([], r1 :: r2 :: r3 :: rest)
  | rs, _ => ([], rs)

/-- Modelled from the spec §4.5: `TubesDriver.update()` (invoked without a
delta by `Game._update`): pairs whose right edge has scrolled past `x = 0`
are removed, then new pairs are spawned on the right, seeded from the
rightmost alive pair (or from the right viewport edge when none is alive). -/
def Game.tubesDriverUpdate (g : Game) : Game :=
  let kept : List Entity := g.entities.filter fun e =>
    decide (e.kind ≠ EntityKind.tubeKind ∨ 0 ≤ e.x + e.width)
  let tubeXs : List ℚ := kept.filterMap fun e =>
    if e.kind = EntityKind.tubeKind then some e.x else none
  let lastX : ℚ := tubeXs.max?.getD g.sceneW
  let p := spawnTubes g.cfg g.sceneW g.sceneH g.driverSpeed g.rand lastX
  { g with entities := kept ++ p.1, rand := p.2 }

/-- `Game._increaseLevel`: the level rises by one, every `Tube` or
`Background` entity of the scene gains `levelUpAcceleration` horizontal
speed, and `TubesDriver.increaseSpeed(levelUpAcceleration)` raises the speed
used for future spawns (modelled from the spec §4.6: the driver's own speed
for future pairs; the alive pairs are the scene entities already covered by
the filter). -/
def Game.increaseLevel (g : Game) : Game :=
  { g with
    level := g.level + 1,
    entities := g.entities.map fun e =>
      if e.kind = EntityKind.tubeKind ∨ e.kind = EntityKind.backgroundKind then
        { e with speed := e.speed + g.cfg.levelUpAcceleration }
      else e,
    driverSpeed := g.driverSpeed + g.cfg.levelUpAcceleration }

/-- Modelled from the spec §4.5: `TubesDriver.getTubes({from, to})` — every
alive pair whose horizontal span `[x, x + width]` intersects `[lo, hi]`, in
ascending x order. -/
def Game.getTubes (g : Game) (lo hi : ℚ) : List Entity :=
  List.insertionSort (fun a b => a.x ≤ b.x)
    (g.entities.filter fun e =>
      decide (e.kind = EntityKind.tubeKind ∧ e.x ≤ hi ∧ lo ≤ e.x + e.width))

/-- `Game._updateScore(delta)`: find the pair under the actor's horizontal
center; if none, do nothing; otherwise, when the pair's center lies within
the crossing window
`(config.tubes.speed + config.levelUpAcceleration * level) * delta`,
increment the score (and play the point sound), then raise the level when
the new score reaches `10 * (level + 1)`. -/
def Game.updateScore (delta : ℚ) (g : Game) : Game :=
  let birdCenter : ℚ := g.bird.x + g.bird.width / 2
  match (g.getTubes birdCenter birdCenter).head? with
  | none => g
  | some crossingTube =>
    let tubeCenter : ℚ := crossingTube.x + crossingTube.width / 2
    let threshold : ℚ :=
      (g.cfg.tubesSpeed + g.cfg.levelUpAcceleration * (g.level : ℚ)) * delta
    if tubeCenter + threshold / 2 ≥ birdCenter ∧ tubeCenter - threshold / 2 ≤ birdCenter then
      let g1 : Game := { g with score := g.score + 1 }
      if g1.score ≥ 10 * (g1.level + 1) then g1.increaseLevel else g1
    else g

/-- One actor update inside `Scene.update`: `Bird.update(delta)` runs and,
when its floor test fires, `game.gameOver()` runs. -/
def Game.birdTick (delta : ℚ) (g : Game) : Game :=
  let p := Bird.update g.cfg.gravitation delta g.sceneH g.bird
  let g1 : Game := { g with bird := p.1 }
  if p.2 then g1.gameOver else g1

/-- Modelled from the spec §4.2: `Scene.update(delta)` calls `update(delta)`
on every live entity — tube pairs and tiles scroll left by
`speed * delta` inside their own update, and the actor integrates gravity
(possibly triggering game over). -/
def Game.sceneUpdate (delta : ℚ) (g : Game) : Game :=
  let g1 : Game :=
    { g with entities := g.entities.map fun e => { e with x := e.x - e.speed * delta } }
  g1.birdTick delta

/-- `Game._update(delta)`: driver update, scene update, scoring, then the
high-score check — when the score exceeds the in-memory high score, the high
score is set to it and synchronously saved to storage
(`LocalStorage.save('highScore', …)`, modelled as writing the storage cell). -/
def Game.update (delta : ℚ) (g : Game) : Game :=
  let g1 : Game := g.tubesDriverUpdate
  let g2 : Game := g1.sceneUpdate delta
  let g3 : Game := g2.updateScore delta
  if g3.score > g3.highScore then
    { g3 with highScore := g3.score, storage := g3.score }
  else g3

/-- One tick of `Game._loop` at wall-clock time `now` (milliseconds):
`delta = (now - lastUpdate) / 1000`, then `_update(delta)`; only when the
state is still PLAYING afterwards does the tick draw, record `lastUpdate :=
now` and schedule the next frame callback; otherwise no callback is pending
any more. -/
def Game.loop (now : ℚ) (g : Game) : Game :=
  let delta : ℚ := (now - g.lastUpdate) / 1000
  let g1 : Game := g.update delta
  if g1.state = GState.PLAYING then
    { g1 with lastUpdate := now, scheduled := true }
  else
    { g1 with scheduled := false }

/-- A timeline of potential frame instants: at each instant a tick fires
exactly when a callback is pending (`scheduled`). -/
def Game.run (g : Game) : List ℚ → Game
  | [] => g
  | now :: rest => Game.run (if g.scheduled then g.loop now else g) rest

/-- `Game._changeState(state)`: the surface is cleared, the state is
recorded, and the handler for the new state runs — LOADING, IDLE and
GAME_OVER only draw their overlay; PLAYING starts the loop by running a tick
immediately. -/
def Game.changeState (now : ℚ) (s : GState) (g : Game) : Game :=
  let g1 : Game := { g with state := s }
  match s with
  | GState.PLAYING => g1.loop now
  | _ => g1

/-- `Game._resize()`: the canvas takes its client dimensions, the scene and
draw engine are resized to them (the scene resize only updates the viewport
dimensions, modelled from the spec §4.2), the background tiling is
regenerated, and `_changeState(currentState)` redraws the current overlay
(running a loop tick when the current state is PLAYING). -/
def Game.resize (now : ℚ) (g : Game) : Game :=
  let g1 : Game := { g with sceneW := g.canvasW, sceneH := g.canvasH }
  let g2 : Game := g1.generateBackgrounds
  g2.changeState now g2.state

/-- The fresh actor `Game._createEntities` builds: at the configured start
position, vertically centered, with zero initial fall velocity (modelled
from the spec: the entity base classes are not in the snapshot). -/
def Game.freshBird (cfg : Config) (sceneH : ℚ) : Bird :=
  { x := cfg.birdStartX, y := sceneH / 2 - cfg.birdHeight / 2,
    width := cfg.birdWidth, height := cfg.birdHeight,
    fallingSpeed := 0, flapSpeed := cfg.flapSpeed, rotation := 0, frame := 0 }

/-- `Game.reset()`: `_changeState(IDLE)` (an overlay draw), score and level
zeroed, fresh physics/collision engines and a fresh scene with the
configured dimensions and no entities, `_resize()` (which re-runs the IDLE
overlay draw), then `_createEntities` — background tiles regenerated (the
model keeps a single copy of the identical row the source generates twice),
a fresh driver at the configured base speed, and a fresh actor. -/
def Game.reset (now : ℚ) (g : Game) : Game :=
  let g1 : Game := { g with state := GState.IDLE, score := 0, level := 0 }
  let g2 : Game := { g1 with sceneW := g.cfg.canvasW, sceneH := g.cfg.canvasH, entities := [] }
  let g3 : Game := g2.resize now
  let g4 : Game := g3.generateBackgrounds
  { g4 with driverSpeed := g.cfg.tubesSpeed, bird := Game.freshBird g.cfg g4.sceneH }

/-- `Game.start()`: reset, play the swooshing sound (external), record the
loop start timestamp, and enter PLAYING (which runs the first tick). -/
def Game.start (now : ℚ) (g : Game) : Game :=
  let g1 : Game := g.reset now
  Game.changeState now GState.PLAYING { g1 with lastUpdate := now }

/-- The primary action of each state: the closures of
`Game._handleAction`'s `actionByStateMap`. -/
inductive GAction where
  | noAction
  | startGame
  | flapBird
deriving DecidableEq

/-- The dispatch table of `Game._handleAction`, keyed by the state strings
exactly as the source object literal is. -/
def actionByStateMap : List (String × GAction) :=
  [("LOADING", GAction.noAction),
   ("IDLE", GAction.startGame),
   ("PLAYING", GAction.flapBird),
   ("GAME_OVER", GAction.startGame)]

/-- `Game._handleAction()`: look the current state up in the dispatch table
and run the action found; a missing entry would crash the handler
(`undefined()`), modelled as `none`. -/
def Game.handleAction (now : ℚ) (g : Game) : Option Game :=
  match actionByStateMap.lookup g.state.key with
  | some GAction.noAction => some g
  | some GAction.startGame => some (g.start now)
  | some GAction.flapBird => some { g with bird := g.bird.flap }
  | none => none

/-- A concrete configuration used to exercise the model on closed inputs.
The scoring numbers follow the spec's worked example: base tube speed 100,
level-up acceleration 10. -/
def sampleConfig : Config :=
  { gravitation := 100, canvasW := 400, canvasH := 1000,
    tubesSpeed := 100, tubesWidth := 20, borderOffset := 10,
    spaceMin := 50, spaceMax := 80, minDistance := 100, maxDistance := 200,
    lookahead := 0, birdStartX := 190, birdWidth := 20, birdHeight := 10,
    flapSpeed := 50, backgroundW := 2, backgroundH := 1, backgroundSpeed := 5,
    levelUpAcceleration := 10, fps := 60 }

/-- A concrete alive tube pair whose span `[189, 209]` contains the sample
actor's horizontal center 200, with pair center 199. -/
def sampleTube : Entity :=
  { kind := EntityKind.tubeKind, x := 189, y := 0, width := 20, height := 1000,
    speed := 100, spaceY := 10, spaceHeight := 50 }

/-- A concrete mid-session game in the PLAYING state: one alive tube pair,
the actor at `x = 190` (center 200), `y = 50`, no pending random draws. -/
def samplePlaying : Game :=
  { cfg := sampleConfig, canvasW := 400, canvasH := 1000, state := GState.PLAYING,
    score := 0, level := 0, highScore := 0, storage := 0,
    sceneW := 400, sceneH := 1000, entities := [sampleTube],
    bird := { x := 190, y := 50, width := 20, height := 10,
              fallingSpeed := 0, flapSpeed := 50, rotation := 0, frame := 0 },
    driverSpeed := 100, lastUpdate := 0, scheduled := true, rand := [] }

/-- A concrete game one point short of a level-up: score 9, one alive tube
pair at `x = 199` so that after one scene scroll of `speed * delta = 10` its
span `[189, 209]` contains the actor's center 200. -/
def sampleScoring : Game :=
  { samplePlaying with score := 9, entities := [{ sampleTube with x := 199 }] }

section Lemmas

/-! Helper lemmas: fields no update-cycle component touches, the fuel
sufficiency of `genXs`, and freezing of an unscheduled loop. -/

theorem Game.increaseLevel_score (g : Game) : (g.increaseLevel).score = g.score := rfl

theorem Game.updateScore_untouched (g : Game) (d : ℚ) :
    (g.updateScore d).lastUpdate = g.lastUpdate ∧
    (g.updateScore d).highScore = g.highScore ∧
    (g.updateScore d).storage = g.storage ∧
    (g.updateScore d).scheduled = g.scheduled := by
  simp only [Game.updateScore]
  split
  · exact ⟨rfl, rfl, rfl, rfl⟩
  · split
    · split <;> exact ⟨rfl, rfl, rfl, rfl⟩
    · exact ⟨rfl, rfl, rfl, rfl⟩

theorem Game.birdTick_untouched (g : Game) (d : ℚ) :
    (g.birdTick d).lastUpdate = g.lastUpdate ∧
    (g.birdTick d).highScore = g.highScore ∧
    (g.birdTick d).storage = g.storage ∧
    (g.birdTick d).scheduled = g.scheduled := by
  simp only [Game.birdTick, Game.gameOver]
  split <;> exact ⟨rfl, rfl, rfl, rfl⟩

theorem Game.sceneUpdate_untouched (g : Game) (d : ℚ) :
    (g.sceneUpdate d).lastUpdate = g.lastUpdate ∧
    (g.sceneUpdate d).highScore = g.highScore ∧
    (g.sceneUpdate d).storage = g.storage ∧
    (g.sceneUpdate d).scheduled = g.scheduled := by
  simp only [Game.sceneUpdate]
  exact Game.birdTick_untouched _ d

theorem Game.update_lastUpdate (g : Game) (d : ℚ) :
    (g.update d).lastUpdate = g.lastUpdate := by
  simp only [Game.update]
  split
  · exact ((Game.updateScore_untouched _ d).1).trans ((Game.sceneUpdate_untouched _ d).1)
  · exact ((Game.updateScore_untouched _ d).1).trans ((Game.sceneUpdate_untouched _ d).1)

theorem Game.run_unscheduled (g : Game) (ts : List ℚ) (h : g.scheduled = false) :
    g.run ts = g := by
  induction ts with
  | nil => rfl
  | cons t ts ih =>
    show Game.run (if g.scheduled then g.loop t else g) ts = g
    rw [h]
    exact ih

end Lemmas

/-- **C10.** For every prior vertical falling speed, `Bird.flap()` sets the
falling speed to exactly `-flapSpeed` — replacing the current velocity
rather than adding an impulse to it — and leaves the actor's position, size
and every other field unchanged. -/
theorem flap_sets_velocity_only :
    ∀ b : Bird,
      b.flap.fallingSpeed = -b.flapSpeed ∧
      b.flap.x = b.x ∧ b.flap.y = b.y ∧
      b.flap.width = b.width ∧ b.flap.height = b.height ∧
      b.flap.flapSpeed = b.flapSpeed ∧
      b.flap.rotation = b.rotation ∧ b.flap.frame = b.frame ∧
      ∀ v1 v2 : ℚ,
        Bird.flap { b with fallingSpeed := v1 } = Bird.flap { b with fallingSpeed := v2 } :=
  fun _ => ⟨rfl, rfl, rfl, rfl, rfl, rfl, rfl, rfl, fun _ _ => rfl⟩

/-- **C6.** `Bird.collide(e)` triggers the transition to GAME_OVER exactly
when `e` is a tube pair; a collision callback with any other kind of entity
leaves the game state unchanged. -/
theorem bird_collide_tube_only :
    ∀ (g : Game) (k : EntityKind),
      (k = EntityKind.tubeKind →
        Bird.collide g k = g.gameOver ∧ (Bird.collide g k).state = GState.GAME_OVER) ∧
      (k ≠ EntityKind.tubeKind → Bird.collide g k = g) := by
  intro g k
  constructor
  · intro hk
    subst hk
    exact ⟨if_pos rfl, by rw [Bird.collide, if_pos rfl]; rfl⟩
  · intro hk
    simp [Bird.collide, hk]

/-- Witness for **C6**: at the concrete sample game, colliding with a tube
pair ends the session and colliding with a background tile does not. -/
theorem bird_collide_tube_only_spot :
    Bird.collide samplePlaying EntityKind.tubeKind = samplePlaying.gameOver ∧
    Bird.collide samplePlaying EntityKind.backgroundKind = samplePlaying :=
  ⟨((bird_collide_tube_only samplePlaying EntityKind.tubeKind).1 rfl).1,
    (bird_collide_tube_only samplePlaying EntityKind.backgroundKind).2 (by decide)⟩

/-- **C1.** `handleAction` dispatches on the current state to exactly the
specified effect: a no-op in LOADING, `start()` (which resets then
transitions to PLAYING) in IDLE and in GAME_OVER, and an upward flap impulse
on the actor in PLAYING; every state has a dispatch entry (the lookup never
misses, so the handler never crashes). -/
theorem handleAction_dispatch :
    ∀ (g : Game) (now : ℚ),
      (g.state = GState.LOADING → g.handleAction now = some g) ∧
      (g.state = GState.IDLE → g.handleAction now = some (g.start now)) ∧
      (g.state = GState.GAME_OVER → g.handleAction now = some (g.start now)) ∧
      (g.state = GState.PLAYING → g.handleAction now = some { g with bird := g.bird.flap }) ∧
      (∀ s : GState, (actionByStateMap.lookup s.key).isSome = true) ∧
      g.start now = Game.changeState now GState.PLAYING { g.reset now with lastUpdate := now } := by
  intro g now
  refine ⟨?_, ?_, ?_, ?_, ?_, rfl⟩
  case refine_5 => intro s; cases s <;> rfl
  all_goals intro h; unfold Game.handleAction; rw [h]; rfl

/-- Witness for **C1**: at concrete games in each of the four states, the
dispatch produces the specified effect. -/
theorem handleAction_dispatch_spot :
    Game.handleAction 5 { samplePlaying with state := GState.LOADING } =
      some { samplePlaying with state := GState.LOADING } ∧
    Game.handleAction 5 { samplePlaying with state := GState.IDLE } =
      some (Game.start 5 { samplePlaying with state := GState.IDLE }) ∧
    Game.handleAction 5 { samplePlaying with state := GState.GAME_OVER } =
      some (Game.start 5 { samplePlaying with state := GState.GAME_OVER }) ∧
    Game.handleAction 5 samplePlaying =
      some { samplePlaying with bird := samplePlaying.bird.flap } :=
  ⟨(handleAction_dispatch { samplePlaying with state := GState.LOADING } 5).1 rfl,
    (handleAction_dispatch { samplePlaying with state := GState.IDLE } 5).2.1 rfl,
    (handleAction_dispatch { samplePlaying with state := GState.GAME_OVER } 5).2.2.1 rfl,
    (handleAction_dispatch samplePlaying 5).2.2.2.1 rfl⟩

/-- **C2.** Each loop tick computes `delta = (now - lastUpdate) / 1000` and
runs `_update(delta)`; only when the state is still PLAYING afterwards does
the tick record `lastUpdate := now` and reschedule.  Once the state leaves
PLAYING no callback is pending any more, so on every later timeline of frame
instants nothing runs: the simulation is frozen. -/
theorem loop_reschedules_only_while_playing :
    ∀ (g : Game) (now : ℚ),
      ((g.update ((now - g.lastUpdate) / 1000)).state = GState.PLAYING →
        g.loop now =
          { g.update ((now - g.lastUpdate) / 1000) with lastUpdate := now, scheduled := true }) ∧
      ((g.update ((now - g.lastUpdate) / 1000)).state ≠ GState.PLAYING →
        g.loop now = { g.update ((now - g.lastUpdate) / 1000) with scheduled := false } ∧
        (g.loop now).lastUpdate = g.lastUpdate ∧
        (g.loop now).scheduled = false) ∧
      (∀ ts : List ℚ, g.scheduled = false → g.run ts = g) := by
  intro g now
  refine ⟨?_, ?_, fun ts h => Game.run_unscheduled g ts h⟩
  · intro h
    unfold Game.loop
    rw [if_pos h]
  · intro h
    have he : g.loop now = { g.update ((now - g.lastUpdate) / 1000) with scheduled := false } := by
      unfold Game.loop
      rw [if_neg h]
    refine ⟨he, ?_, by rw [he]⟩
    rw [he]
    show (g.update ((now - g.lastUpdate) / 1000)).lastUpdate = g.lastUpdate
    exact Game.update_lastUpdate g _

/-- Witness for **C2**: a concrete tick whose update ends the session (the
actor reaches the floor) does not reschedule and keeps `lastUpdate`; a
concrete unscheduled game is frozen over a concrete timeline. -/
theorem loop_reschedules_only_while_playing_spot :
    (Game.loop 100 { samplePlaying with bird := { samplePlaying.bird with y := 995 } }).scheduled
        = false ∧
    (Game.loop 100 { samplePlaying with bird := { samplePlaying.bird with y := 995 } }).lastUpdate
        = 0 ∧
    Game.run { samplePlaying with state := GState.GAME_OVER, scheduled := false } [1, 2, 3]
        = { samplePlaying with state := GState.GAME_OVER, scheduled := false } := by
  have hover : (Game.update
      ((100 - ({ samplePlaying with
          bird := { samplePlaying.bird with y := 995 } } : Game).lastUpdate) / 1000)
      { samplePlaying with bird := { samplePlaying.bird with y := 995 } }).state
        ≠ GState.PLAYING := by
    norm_num [Game.update, Game.sceneUpdate, Game.birdTick, Game.gameOver, Game.updateScore,
      Game.getTubes, Game.tubesDriverUpdate, Bird.update, spawnTubes, samplePlaying,
      sampleConfig, sampleTube, List.insertionSort, List.orderedInsert]
    decide
  refine ⟨((loop_reschedules_only_while_playing
      { samplePlaying with bird := { samplePlaying.bird with y := 995 } } 100).2.1 hover).2.2,
    ((loop_reschedules_only_while_playing
      { samplePlaying with bird := { samplePlaying.bird with y := 995 } } 100).2.1 hover).2.1,
    (loop_reschedules_only_while_playing
      { samplePlaying with state := GState.GAME_OVER, scheduled := false } 1).2.2 [1, 2, 3] rfl⟩

/-- **C5.** For every `delta ≥ 0` and every prior vertical velocity, after
one `Bird.update(delta)` the actor's `y` is `≥ 0`; the update reports the
game-over condition exactly when the resulting `y + height` reaches the
viewport height, and the transition fires directly inside the actor's update
step (`birdTick`); once the state has left PLAYING the loop no longer
reschedules, so the trigger cannot fire again on a later tick. -/
theorem bird_floor_clamp_and_game_over :
    (∀ (grav delta sceneH : ℚ) (b : Bird), 0 ≤ delta →
        0 ≤ (Bird.update grav delta sceneH b).1.y) ∧
    (∀ (grav delta sceneH : ℚ) (b : Bird),
        (Bird.update grav delta sceneH b).2 = true ↔
          sceneH ≤ (Bird.update grav delta sceneH b).1.y + b.height) ∧
    (∀ (g : Game) (delta : ℚ),
        (g.birdTick delta).state = GState.GAME_OVER ↔
          (Bird.update g.cfg.gravitation delta g.sceneH g.bird).2 = true ∨
            g.state = GState.GAME_OVER) ∧
    (∀ (g : Game) (now : ℚ),
        (g.loop now).state ≠ GState.PLAYING → (g.loop now).scheduled = false) ∧
    (∀ (g : Game) (ts : List ℚ), g.scheduled = false → g.run ts = g) := by
  refine ⟨?_, ?_, ?_, ?_, fun g ts h => Game.run_unscheduled g ts h⟩
  · intro grav delta sceneH b _
    simp only [Bird.update]
    split
    · exact le_refl 0
    · next hneg => exact le_of_not_lt hneg
  · intro grav delta sceneH b
    simp only [Bird.update, decide_eq_true_eq]
  · intro g delta
    simp only [Game.birdTick, Game.gameOver]
    split
    · next htrig => simp [htrig]
    · next htrig =>
      show g.state = GState.GAME_OVER ↔ _
      simp [htrig]
  · intro g now h
    simp only [Game.loop] at h ⊢
    split
    · next hpl =>
      rw [if_pos hpl] at h
      exact absurd hpl h
    · rfl

/-- Witness for **C5**: concrete clamp (a fast upward velocity would push
`y` below 0, the update clamps it to 0), a concrete floor hit reporting the
trigger, a concrete tick that leaves PLAYING and therefore does not
reschedule, and a frozen unscheduled game. -/
theorem bird_floor_clamp_and_game_over_spot :
    0 ≤ (Bird.update 100 (1 / 10) 1000
          { x := 190, y := 50, width := 20, height := 10, fallingSpeed := -1000,
            flapSpeed := 50, rotation := 0, frame := 0 }).1.y ∧
    ((Bird.update 100 (1 / 10) 1000
          { x := 190, y := 995, width := 20, height := 10, fallingSpeed := 0,
            flapSpeed := 50, rotation := 0, frame := 0 }).2 = true ↔
        (1000 : ℚ) ≤ (Bird.update 100 (1 / 10) 1000
          { x := 190, y := 995, width := 20, height := 10, fallingSpeed := 0,
            flapSpeed := 50, rotation := 0, frame := 0 }).1.y + 10) ∧
    (Game.loop 200 { samplePlaying with
        bird := { samplePlaying.bird with y := 995 } }).scheduled = false ∧
    Game.run { samplePlaying with state := GState.GAME_OVER, scheduled := false } [7]
        = { samplePlaying with state := GState.GAME_OVER, scheduled := false } := by
  have hst : (Game.loop 200 { samplePlaying with
      bird := { samplePlaying.bird with y := 995 } }).state ≠ GState.PLAYING := by
    norm_num [Game.loop, Game.update, Game.sceneUpdate, Game.birdTick, Game.gameOver,
      Game.updateScore, Game.getTubes, Game.tubesDriverUpdate, Bird.update, spawnTubes,
      samplePlaying, sampleConfig, sampleTube, List.insertionSort, List.orderedInsert]
    decide
  exact ⟨bird_floor_clamp_and_game_over.1 100 (1 / 10) 1000
      { x := 190, y := 50, width := 20, height := 10, fallingSpeed := -1000,
        flapSpeed := 50, rotation := 0, frame := 0 } (by norm_num),
    bird_floor_clamp_and_game_over.2.1 100 (1 / 10) 1000
      { x := 190, y := 995, width := 20, height := 10, fallingSpeed := 0,
        flapSpeed := 50, rotation := 0, frame := 0 },
    bird_floor_clamp_and_game_over.2.2.2.1
      { samplePlaying with bird := { samplePlaying.bird with y := 995 } } 200 hst,
    bird_floor_clamp_and_game_over.2.2.2.2
      { samplePlaying with state := GState.GAME_OVER, scheduled := false } [7] rfl⟩

/-- **C3.** On every scoring pass: when no alive tube pair's horizontal span
contains the actor's horizontal center, the whole game state — in particular
the score — is unchanged (the empty query is a normal result); when such a
pair is found and its horizontal center lies within `threshold / 2` of the
actor's center, where `threshold = (baseSpeed + levelUpAcceleration * level)
* delta`, the score increments by exactly 1; in every case the score
increases by at most 1 per pass. -/
theorem score_crossing_window :
    ∀ (g : Game) (delta : ℚ),
      (g.getTubes (g.bird.x + g.bird.width / 2) (g.bird.x + g.bird.width / 2) = [] ↔
        ∀ e ∈ g.entities, ¬(e.kind = EntityKind.tubeKind ∧
          e.x ≤ g.bird.x + g.bird.width / 2 ∧ g.bird.x + g.bird.width / 2 ≤ e.x + e.width)) ∧
      (g.getTubes (g.bird.x + g.bird.width / 2) (g.bird.x + g.bird.width / 2) = [] →
        g.updateScore delta = g) ∧
      (∀ t, (g.getTubes (g.bird.x + g.bird.width / 2) (g.bird.x + g.bird.width / 2)).head?
          = some t →
        |t.x + t.width / 2 - (g.bird.x + g.bird.width / 2)| ≤
          (g.cfg.tubesSpeed + g.cfg.levelUpAcceleration * (g.level : ℚ)) * delta / 2 →
        (g.updateScore delta).score = g.score + 1) ∧
      (g.score ≤ (g.updateScore delta).score ∧ (g.updateScore delta).score ≤ g.score + 1) := by
  intro g delta
  have hnil : ∀ (l : List Entity),
      List.insertionSort (fun a b : Entity => a.x ≤ b.x) l = [] ↔ l = [] := by
    intro l
    constructor
    · intro h
      have hp := List.perm_insertionSort (fun a b : Entity => a.x ≤ b.x) l
      rw [h] at hp
      exact (List.Perm.nil_eq hp).symm
    · intro h
      rw [h]
      rfl
  refine ⟨?_, ?_, ?_, ?_⟩
  · unfold Game.getTubes
    rw [hnil, List.filter_eq_nil_iff]
    simp only [decide_eq_true_eq]
  · intro h
    simp only [Game.updateScore, h, List.head?_nil]
  · intro t ht habs
    rw [abs_sub_le_iff] at habs
    simp only [Game.updateScore, ht]
    split
    · split
      · exact Game.increaseLevel_score _
      · rfl
    · next hcond =>
      exact absurd ⟨by linarith [habs.2], by linarith [habs.1]⟩ hcond
  · rcases hh : (g.getTubes (g.bird.x + g.bird.width / 2)
        (g.bird.x + g.bird.width / 2)).head? with _ | t
    · simp only [Game.updateScore, hh]
      exact ⟨le_refl _, Nat.le_succ _⟩
    · simp only [Game.updateScore, hh]
      split
      · split
        · rw [Game.increaseLevel_score]
          exact ⟨Nat.le_succ _, le_refl _⟩
        · exact ⟨Nat.le_succ _, le_refl _⟩
      · exact ⟨le_refl _, Nat.le_succ _⟩

/-- Witness for **C3**: with no alive tube pair the scoring pass leaves the
concrete game untouched; at the spec's worked numbers (base speed 100,
level 0, delta 1/10, actor center 200, pair center 199, window 10) the score
increments by exactly 1. -/
theorem score_crossing_window_spot :
    Game.updateScore 1 { samplePlaying with entities := [] }
        = { samplePlaying with entities := [] } ∧
    (Game.updateScore (1 / 10) samplePlaying).score = samplePlaying.score + 1 := by
  have hhead : (samplePlaying.getTubes (samplePlaying.bird.x + samplePlaying.bird.width / 2)
      (samplePlaying.bird.x + samplePlaying.bird.width / 2)).head? = some sampleTube := by
    norm_num [Game.getTubes, samplePlaying, sampleConfig, sampleTube,
      List.insertionSort, List.orderedInsert]
  have habs : |sampleTube.x + sampleTube.width / 2 -
        (samplePlaying.bird.x + samplePlaying.bird.width / 2)| ≤
      (samplePlaying.cfg.tubesSpeed +
        samplePlaying.cfg.levelUpAcceleration * (samplePlaying.level : ℚ)) * (1 / 10) / 2 := by
    rw [abs_le]
    constructor <;> norm_num [samplePlaying, sampleConfig, sampleTube]
  exact ⟨(score_crossing_window { samplePlaying with entities := [] } 1).2.1 rfl,
    (score_crossing_window samplePlaying (1 / 10)).2.2.1 sampleTube hhead habs⟩

/-- **C4.** `_increaseLevel` raises the level by exactly 1, adds
`levelUpAcceleration` to the horizontal speed of the obstacle driver and of
every alive tube pair and background tile in the scene (and of nothing
else); and the scoring pass invokes it exactly when the score increment it
just performed reaches `10 * (level + 1)`. -/
theorem level_up_on_score_threshold :
    ∀ (g : Game) (delta : ℚ) (t : Entity),
      ((g.increaseLevel).level = g.level + 1 ∧
        (g.increaseLevel).driverSpeed = g.driverSpeed + g.cfg.levelUpAcceleration ∧
        List.Forall₂ (fun e eAfter : Entity =>
          ((e.kind = EntityKind.tubeKind ∨ e.kind = EntityKind.backgroundKind) →
            eAfter = { e with speed := e.speed + g.cfg.levelUpAcceleration }) ∧
          (e.kind = EntityKind.birdKind → eAfter = e))
          g.entities (g.increaseLevel).entities) ∧
      ((g.getTubes (g.bird.x + g.bird.width / 2) (g.bird.x + g.bird.width / 2)).head?
          = some t →
        |t.x + t.width / 2 - (g.bird.x + g.bird.width / 2)| ≤
          (g.cfg.tubesSpeed + g.cfg.levelUpAcceleration * (g.level : ℚ)) * delta / 2 →
        (10 * (g.level + 1) ≤ g.score + 1 →
          g.updateScore delta = Game.increaseLevel { g with score := g.score + 1 }) ∧
        (g.score + 1 < 10 * (g.level + 1) →
          g.updateScore delta = { g with score := g.score + 1 })) := by
  intro g delta t
  constructor
  · refine ⟨rfl, rfl, ?_⟩
    have hent : (g.increaseLevel).entities = g.entities.map (fun e =>
        if e.kind = EntityKind.tubeKind ∨ e.kind = EntityKind.backgroundKind then
          { e with speed := e.speed + g.cfg.levelUpAcceleration }
        else e) := rfl
    rw [hent, List.forall₂_map_right_iff, List.forall₂_same]
    intro e _
    constructor
    · intro hk
      rw [if_pos hk]
    · intro hk
      rw [if_neg (by simp [hk])]
  · intro ht habs
    rw [abs_sub_le_iff] at habs
    constructor
    · intro h10
      simp only [Game.updateScore, ht]
      split
      · rfl
      · next hcond => exact absurd ⟨by linarith [habs.2], by linarith [habs.1]⟩ hcond
    · intro hlt
      have hn : ¬ 10 * (g.level + 1) ≤ g.score + 1 := not_le.mpr hlt
      simp only [Game.updateScore, ht]
      split
      · rfl
      · next hcond => exact absurd ⟨by linarith [habs.2], by linarith [habs.1]⟩ hcond

/-- Witness for **C4**: at the concrete game with score 9, level 0 and the
pair centered 1 away from the actor's center, the scoring pass reaches score
10 and levels up; at the same game with score 0 it increments to 1 without a
level-up; the concrete level-up raises the alive tube's speed from 100 to
110 and the driver's from 100 to 110. -/
theorem level_up_on_score_threshold_spot :
    Game.updateScore (1 / 10) { samplePlaying with score := 9 }
        = Game.increaseLevel { samplePlaying with score := 10 } ∧
    Game.updateScore (1 / 10) samplePlaying = { samplePlaying with score := 1 } ∧
    (Game.increaseLevel samplePlaying).level = samplePlaying.level + 1 := by
  have hhead : ∀ n : ℕ, (Game.getTubes { samplePlaying with score := n }
      (({ samplePlaying with score := n } : Game).bird.x +
        ({ samplePlaying with score := n } : Game).bird.width / 2)
      (({ samplePlaying with score := n } : Game).bird.x +
        ({ samplePlaying with score := n } : Game).bird.width / 2)).head?
        = some sampleTube := by
    intro n
    norm_num [Game.getTubes, samplePlaying, sampleConfig, sampleTube,
      List.insertionSort, List.orderedInsert]
  have habs : ∀ n : ℕ, |sampleTube.x + sampleTube.width / 2 -
        (({ samplePlaying with score := n } : Game).bird.x +
          ({ samplePlaying with score := n } : Game).bird.width / 2)| ≤
      (({ samplePlaying with score := n } : Game).cfg.tubesSpeed +
        ({ samplePlaying with score := n } : Game).cfg.levelUpAcceleration *
          ((({ samplePlaying with score := n } : Game).level : ℕ) : ℚ)) * (1 / 10) / 2 := by
    intro n
    rw [abs_le]
    constructor <;> norm_num [samplePlaying, sampleConfig, sampleTube]
  refine ⟨?_, ?_, (level_up_on_score_threshold samplePlaying (1 / 10) sampleTube).1.1⟩
  · exact ((level_up_on_score_threshold { samplePlaying with score := 9 } (1 / 10)
      sampleTube).2 (hhead 9) (habs 9)).1 (by norm_num [samplePlaying])
  · exact ((level_up_on_score_threshold samplePlaying (1 / 10)
      sampleTube).2 (hhead 0) (habs 0)).2 (by norm_num [samplePlaying])

/-- **C7.** Across one `_update` tick the in-memory high score never
decreases and stays equal to the persisted value; it is updated and
synchronously persisted exactly on the ticks where the current score (after
the tick's scoring pass) strictly exceeds the stored high score, and on all
other ticks both the in-memory and the persisted value are untouched. -/
theorem high_score_monotone_persist :
    ∀ (g : Game) (delta : ℚ), g.highScore = g.storage →
      g.highScore ≤ (g.update delta).highScore ∧
      (g.update delta).highScore = (g.update delta).storage ∧
      (g.storage < (((g.tubesDriverUpdate).sceneUpdate delta).updateScore delta).score →
        (g.update delta).highScore
            = (((g.tubesDriverUpdate).sceneUpdate delta).updateScore delta).score ∧
        (g.update delta).storage
            = (((g.tubesDriverUpdate).sceneUpdate delta).updateScore delta).score) ∧
      (¬ g.storage < (((g.tubesDriverUpdate).sceneUpdate delta).updateScore delta).score →
        (g.update delta).highScore = g.highScore ∧
        (g.update delta).storage = g.storage) := by
  intro g delta hmem
  have hh : (((g.tubesDriverUpdate).sceneUpdate delta).updateScore delta).highScore
      = g.highScore :=
    ((Game.updateScore_untouched _ delta).2.1).trans ((Game.sceneUpdate_untouched _ delta).2.1)
  have hst : (((g.tubesDriverUpdate).sceneUpdate delta).updateScore delta).storage
      = g.storage :=
    ((Game.updateScore_untouched _ delta).2.2.1).trans ((Game.sceneUpdate_untouched _ delta).2.2.1)
  simp only [Game.update]
  split
  · next hgt =>
    rw [hh, hmem] at hgt
    refine ⟨?_, rfl, fun _ => ⟨rfl, rfl⟩, fun hng => absurd hgt hng⟩
    rw [hmem]
    exact le_of_lt hgt
  · next hng =>
    rw [hh, hmem] at hng
    exact ⟨le_of_eq hh.symm, hh.trans (hmem.trans hst.symm), fun hgt => absurd hgt hng,
      fun _ => ⟨hh, hst⟩⟩

/-- Witness for **C7**: on the concrete tick that lifts the score from 9 to
10 past a stored high score of 0, both the in-memory and the persisted
values become 10; on a tick that scores no point (no pair under the actor)
both stay at the stored value 3. -/
theorem high_score_monotone_persist_spot :
    (Game.update (1 / 10) sampleScoring).highScore
        = (((sampleScoring.tubesDriverUpdate).sceneUpdate (1 / 10)).updateScore (1 / 10)).score ∧
    (Game.update (1 / 10) sampleScoring).storage
        = (((sampleScoring.tubesDriverUpdate).sceneUpdate (1 / 10)).updateScore (1 / 10)).score ∧
    (Game.update 1 { samplePlaying with entities := [], highScore := 3, storage := 3 }).highScore
        = 3 ∧
    (Game.update 1 { samplePlaying with entities := [], highScore := 3, storage := 3 }).storage
        = 3 := by
  have hgt : sampleScoring.storage
      < (((sampleScoring.tubesDriverUpdate).sceneUpdate (1 / 10)).updateScore (1 / 10)).score := by
    norm_num [Game.updateScore, Game.sceneUpdate, Game.birdTick, Game.gameOver, Game.getTubes,
      Game.tubesDriverUpdate, Bird.update, spawnTubes, sampleScoring, samplePlaying,
      sampleConfig, sampleTube, List.insertionSort, List.orderedInsert]
    try decide
  have hng : ¬ ({ samplePlaying with entities := [], highScore := 3, storage := 3 } : Game).storage
      < ((((({ samplePlaying with entities := [], highScore := 3, storage := 3 } : Game)
          ).tubesDriverUpdate).sceneUpdate 1).updateScore 1).score := by
    norm_num [Game.updateScore, Game.sceneUpdate, Game.birdTick, Game.gameOver, Game.getTubes,
      Game.tubesDriverUpdate, Bird.update, spawnTubes, samplePlaying,
      sampleConfig, sampleTube, List.insertionSort, List.orderedInsert]
    try decide
  have h1 := (high_score_monotone_persist sampleScoring (1 / 10) rfl).2.2.1 hgt
  have h2 := (high_score_monotone_persist
      { samplePlaying with entities := [], highScore := 3, storage := 3 } 1 rfl).2.2.2 hng
  exact ⟨h1.1, h1.2, h2.1, h2.2⟩

/-- Counterexample for **C8** as stated: a resize while PLAYING runs
`_changeState(PLAYING)`, whose handler starts a loop tick, so the resize
advances the simulation — at the concrete PLAYING game the actor's vertical
position changes (50 to 51), contradicting "the Actor's positionui the same
after the resize as before it" for every state. -/
theorem resize_playing_alters_progress :
    samplePlaying.state = GState.PLAYING ∧
    (Game.resize 100 samplePlaying).bird.y ≠ samplePlaying.bird.y := by
  have hceil : (Nat.ceil ((1 : ℚ) / 5)) = 1 := by
    rw [Nat.ceil_eq_iff one_ne_zero]
    norm_num
  constructor
  · rfl
  · norm_num [Game.resize, Game.changeState, Game.generateBackgrounds, genXs, genXsAux,
      Game.loop, Game.update, Game.sceneUpdate, Game.birdTick, Game.gameOver,
      Game.updateScore, Game.getTubes, Game.tubesDriverUpdate, Bird.update, spawnTubes,
      samplePlaying, sampleConfig, sampleTube, List.insertionSort, List.orderedInsert,
      List.filter, List.filterMap, hceil]

/-- **C8 (amended).** A resize event resizes the scene and the draw surface,
regenerates the background tiling, and redraws the current state's overlay;
in every state other than PLAYING it does not alter game progress: the
state, score, level, high score, persisted value and the actor are the same
after the resize as before it.  (In PLAYING, the redraw runs a loop tick and
advances the simulation — see the counterexample.) -/
theorem resize_preserves_progress_outside_playing :
    ∀ (g : Game) (now : ℚ), g.state ≠ GState.PLAYING →
      (g.resize now).state = g.state ∧
      (g.resize now).score = g.score ∧
      (g.resize now).level = g.level ∧
      (g.resize now).highScore = g.highScore ∧
      (g.resize now).storage = g.storage ∧
      (g.resize now).bird = g.bird ∧
      (g.resize now).sceneW = g.canvasW ∧
      (g.resize now).sceneH = g.canvasH := by
  intro g now h
  cases hs : g.state with
  | PLAYING => exact absurd hs h
  | LOADING => simp [Game.resize, Game.generateBackgrounds, Game.changeState, hs]
  | IDLE => simp [Game.resize, Game.generateBackgrounds, Game.changeState, hs]
  | GAME_OVER => simp [Game.resize, Game.generateBackgrounds, Game.changeState, hs]

/-- Witness for **C8 (amended)**: at a concrete IDLE game the resize keeps
state, score, level, high score, storage and the actor, and adopts the
canvas client dimensions. -/
theorem resize_preserves_progress_outside_playing_spot :
    (Game.resize 100 { samplePlaying with state := GState.IDLE }).state = GState.IDLE ∧
    (Game.resize 100 { samplePlaying with state := GState.IDLE }).score = samplePlaying.score ∧
    (Game.resize 100 { samplePlaying with state := GState.IDLE }).bird = samplePlaying.bird ∧
    (Game.resize 100 { samplePlaying with state := GState.IDLE }).sceneW = samplePlaying.canvasW ∧
    (Game.resize 100 { samplePlaying with state := GState.IDLE }).sceneH
        = samplePlaying.canvasH := by
  have h := resize_preserves_progress_outside_playing
    { samplePlaying with state := GState.IDLE } 100 (by decide)
  exact ⟨h.1, h.2.1, h.2.2.2.2.2.1, h.2.2.2.2.2.2.1, h.2.2.2.2.2.2.2⟩

/-- For positive arguments, the natural ceiling of `t - 1` is one less than
that of `t` (used to show the fuel of `genXs` is always sufficient). -/
theorem ceil_sub_one_of_pos {t : ℚ} (ht : 0 < t) :
    Nat.ceil (t - 1) = Nat.ceil t - 1 := by
  rcases le_or_lt t 1 with h1 | h1
  · have h0 : Nat.ceil (t - 1) = 0 := by
      rw [Nat.ceil_eq_zero]
      linarith
    have hc1 : Nat.ceil t = 1 := by
      have hle : Nat.ceil t ≤ 1 := by
        rw [Nat.ceil_le]
        push_cast
        linarith
      have hpos : 0 < Nat.ceil t := Nat.ceil_pos.mpr ht
      omega
    rw [h0, hc1]
  · have h0 : (0 : ℚ) ≤ t - 1 := by linarith
    have hadd := Nat.ceil_add_one h0
    rw [sub_add_cancel] at hadd
    omega

/-- The first tile of a generation run starts at the seed abscissa. -/
theorem genXsAux_head (w W : ℚ) : ∀ (n : ℕ) (x : ℚ),
    (genXsAux w W n x).head? = some x := by
  intro n x
  cases n with
  | zero => rfl
  | succ n =>
    simp only [genXsAux]
    split <;> rfl

/-- Each tile of a generation run starts exactly where the previous one
ends. -/
theorem genXsAux_chain (w W : ℚ) : ∀ (n : ℕ) (x : ℚ),
    List.Chain' (fun a b => b = a + w) (genXsAux w W n x) := by
  intro n
  induction n with
  | zero => intro x; exact List.chain'_singleton x
  | succ n ih =>
    intro x
    simp only [genXsAux]
    split
    · rw [List.chain'_cons']
      refine ⟨?_, ih (x + w)⟩
      intro b hb
      rw [genXsAux_head] at hb
      injection hb with hb
      exact hb.symm
    · exact List.chain'_singleton x

/-- With sufficient fuel and a positive tile width, a generation run seeded
at `x` covers every point of `[x, W]`. -/
theorem genXsAux_cover (w W : ℚ) (hw : 0 < w) : ∀ (n : ℕ) (x : ℚ),
    Nat.ceil ((W - x) / w) ≤ n → ∀ p : ℚ, x ≤ p → p ≤ W →
      ∃ y ∈ genXsAux w W n x, y ≤ p ∧ p ≤ y + w := by
  intro n
  induction n with
  | zero =>
    intro x hn p hxp hpW
    rw [Nat.le_zero] at hn
    have hWx : W ≤ x := by
      by_contra hc
      push_neg at hc
      have hpos : 0 < (W - x) / w := div_pos (by linarith) hw
      have := Nat.ceil_pos.mpr hpos
      omega
    exact ⟨x, List.mem_singleton_self x, hxp, by linarith⟩
  | succ n ih =>
    intro x hn p hxp hpW
    simp only [genXsAux]
    split
    · next hcond =>
      rcases le_or_lt p (x + w) with hple | hplt
      · exact ⟨x, List.mem_cons_self x _, hxp, hple⟩
      · have hx : x < W := hcond.2
        have ht : 0 < (W - x) / w := div_pos (by linarith) hw
        have hsub : (W - (x + w)) / w = (W - x) / w - 1 := by
          field_simp
          ring
        have hle' : Nat.ceil ((W - (x + w)) / w) ≤ n := by
          rw [hsub, ceil_sub_one_of_pos ht]
          omega
        obtain ⟨y, hy, hy1, hy2⟩ := ih (x + w) hle' p (le_of_lt hplt) hpW
        exact ⟨y, List.mem_cons_of_mem x hy, hy1, hy2⟩
    · next hcond =>
      have hWx : W ≤ x := by
        rcases not_and_or.mp hcond with h | h
        · exact absurd hw h
        · exact le_of_not_lt h
      exact ⟨x, List.mem_singleton_self x, hxp, by linarith⟩

/-- **C9.** After `_generateBackgrounds` runs with a positive tile width,
the generated tiles are contiguous — the first starts at `x = 0` and each
subsequent tile starts exactly where the previous one ends — and together
they cover the horizontal interval `[0, scene width]` with no gap; and the
background tiles `_generateBackgrounds` leaves in the scene sit exactly at
the abscissas of that generation run. -/
theorem backgrounds_contiguous_cover :
    (∀ (w sceneW : ℚ), 0 < w →
      (genXs w sceneW 0).head? = some 0 ∧
      List.Chain' (fun a b => b = a + w) (genXs w sceneW 0) ∧
      ∀ p : ℚ, 0 ≤ p → p ≤ sceneW → ∃ x ∈ genXs w sceneW 0, x ≤ p ∧ p ≤ x + w) ∧
    (∀ g : Game,
      ((g.generateBackgrounds).entities.filter
          (fun e => e.kind = EntityKind.backgroundKind)).map (fun e => e.x)
        = genXs (g.sceneH * (g.cfg.backgroundW / g.cfg.backgroundH)) g.sceneW 0) := by
  constructor
  · intro w sceneW hw
    refine ⟨genXsAux_head w sceneW _ 0, genXsAux_chain w sceneW _ 0, ?_⟩
    intro p hp0 hpW
    exact genXsAux_cover w sceneW hw _ 0 (le_refl _) p hp0 hpW
  · intro g
    simp only [Game.generateBackgrounds]
    rw [List.filter_append, List.filter_filter]
    have h1 : (g.entities.filter fun a =>
        decide (a.kind = EntityKind.backgroundKind) &&
          decide (a.kind ≠ EntityKind.backgroundKind)) = [] := by
      apply List.filter_eq_nil_iff.mpr
      intro a _
      simp only [Bool.and_eq_true, decide_eq_true_eq]
      tauto
    rw [h1]
    simp [List.filter_map, Function.comp_def, List.map_map]

/-- Witness for **C9**: with tile width 2 and scene width 3, the generated
row is contiguous from 0 and the point 1 lies inside a generated tile. -/
theorem backgrounds_contiguous_cover_spot :
    (genXs 2 3 0).head? = some 0 ∧
    List.Chain' (fun a b => b = a + 2) (genXs 2 3 0) ∧
    ∃ x ∈ genXs 2 3 0, x ≤ 1 ∧ (1 : ℚ) ≤ x + 2 := by
  have h := backgrounds_contiguous_cover.1 2 3 (by norm_num)
  exact ⟨h.1, h.2.1, h.2.2 1 (by norm_num) (by norm_num)⟩

end Flappy
